import Mathlib

/-!
Shallow embedding of the DeepL Haystack adapters, translated from
src/deepl_haystack/components.py (the current generation of the two
components; the older generation kept under
src/deepl_haystack/components/translators/deepl/translator.py is
superseded by it and is the one the package tests no longer target).

Modelling conventions:
  - The remote DeepL client is an external collaborator; it is passed to
    the run methods as a function parameter, and every outbound call is
    recorded in an explicit trace so that "performs no network call" is
    an observable statement.
  - Python dictionaries (document metadata, environment) are association
    lists with Python update semantics: updating an existing key keeps
    its position, a fresh key is appended at the end.
  - Python truthiness of strings and of optional strings (None and the
    empty string are falsy) is modelled explicitly, since the source
    relies on it for source-language resolution and for the reserved
    metadata key warning.
  - Exceptions are Except values; the runtime type of weakly typed
    arguments (target_lang, the text passed to run) is a PyVal value.
  - The module global deepl.http_client.max_network_retries is a piece
    of state threaded through construction.
-/

namespace DeepLHaystack

/-- Python runtime values, as far as the argument checks of the two
adapters inspect them. -/
inductive PyVal : Type where
  | str (s : String)
  | int (n : Int)
  | list (xs : List PyVal)
  | noneVal
  | obj (name : String)

/-- isinstance(v, str) -/
def pyIsStr : PyVal → Bool
  | .str _ => true
  | _ => false

/-- The string payload of a PyVal; only used after an isinstance check. -/
def pyAsString : PyVal → String
  | .str s => s
  | _ => ""

/-- Union[str, List[str]] -/
abbrev StrOrList := Sum String (List String)

/-- The string-or-list payload of a PyVal; only used after the document
adapter target_lang check. -/
def pyAsStrOrList : PyVal → StrOrList
  | .str s => .inl s
  | .list xs => .inr (xs.map pyAsString)
  | _ => .inl ""

/-- Python errors raised by the adapters. -/
inductive PyError : Type where
  | typeError (msg : String)
  | valueError (msg : String)
deriving DecidableEq

/-- A Python string dictionary as an association list. -/
abbrev PyDict := List (String × String)

/-- d.get(key): value of the first entry with the given key. -/
def dictGet : PyDict → String → Option String
  | [], _ => Option.none
  | (k, v) :: rest, key => if k == key then some v else dictGet rest key

/-- d[key] = val with Python dict semantics: an existing key keeps its
position and gets the new value, a fresh key is appended at the end. -/
def dictSet : PyDict → String → String → PyDict
  | [], key, val => [(key, val)]
  | (k, v) :: rest, key, val =>
      if k == key then (k, val) :: rest else (k, v) :: dictSet rest key val

/-- Python truthiness of an optional string: None and "" are falsy. -/
def optTruthy : Option String → Bool
  | Option.none => false
  | some s => !(s == "")

/-- `source_lang or self.source_lang or None` (components.py lines 144
and 348): per-call override if truthy, else the configured default if
truthy, else None. -/
def resolveSourceLang (override cfg : Option String) : Option String :=
  if optTruthy override then override
  else if optTruthy cfg then cfg
  else Option.none

/-- deepl.Formality. -/
inductive Formality : Type where
  | default
  | less
  | more
  | preferLess
  | preferMore
deriving DecidableEq

/-- The underlying primitive value of each Formality member. -/
def Formality.value : Formality → String
  | .default => "default"
  | .less => "less"
  | .more => "more"
  | .preferLess => "prefer_less"
  | .preferMore => "prefer_more"

/-- Formality(s) on a string: the member with that value, otherwise a
ValueError (the behavior of a Python Enum call). -/
def Formality.ofString (s : String) : Except PyError Formality :=
  if s == "default" then .ok .default
  else if s == "less" then .ok .less
  else if s == "more" then .ok .more
  else if s == "prefer_less" then .ok .preferLess
  else if s == "prefer_more" then .ok .preferMore
  else .error (.valueError (s ++ " is not a valid Formality"))

/-- deepl.SplitSentences (DEFAULT is an alias of ALL). -/
inductive SplitSentences : Type where
  | off
  | all
  | noNewlines
deriving DecidableEq

/-- The underlying primitive value of each SplitSentences member. -/
def SplitSentences.value : SplitSentences → String
  | .off => "0"
  | .all => "1"
  | .noNewlines => "nonewlines"

/-- SplitSentences(s) on a string. -/
def SplitSentences.ofString (s : String) : Except PyError SplitSentences :=
  if s == "0" then .ok .off
  else if s == "1" then .ok .all
  else if s == "nonewlines" then .ok .noNewlines
  else .error (.valueError (s ++ " is not a valid SplitSentences"))

/-- `Formality(formality or Formality.DEFAULT)`: None and the empty
string are falsy and give DEFAULT; an enum member is always truthy and
is returned unchanged; any other string is parsed. -/
def formalityFromArg : Option (Sum String Formality) → Except PyError Formality
  | Option.none => .ok .default
  | some (.inl s) => if s == "" then .ok .default else Formality.ofString s
  | some (.inr f) => .ok f

/-- `SplitSentences(split_sentences or SplitSentences.DEFAULT)`; DEFAULT
is ALL. -/
def splitSentencesFromArg :
    Option (Sum String SplitSentences) → Except PyError SplitSentences
  | Option.none => .ok .all
  | some (.inl s) => if s == "" then .ok .all else SplitSentences.ofString s
  | some (.inr f) => .ok f

/-- The process environment, as an association list of variables. -/
abbrev Env := List (String × String)

/-- A haystack Secret: either a reference to environment variables or a
literal token. -/
inductive Secret : Type where
  | envVar (env_vars : List String) (strict : Bool)
  | token (value : String)
deriving DecidableEq

/-- The first environment variable of the list that is set. -/
def firstEnvValue (env : Env) : List String → Option String
  | [] => Option.none
  | v :: rest =>
      match dictGet env v with
      | some x => some x
      | Option.none => firstEnvValue env rest

/-- Secret.resolve_value: a token resolves to itself; an env-var secret
resolves to the first set variable, and raises a ValueError when none is
set and the secret is strict. -/
def Secret.resolveValue (env : Env) : Secret → Except PyError (Option String)
  | .token v => .ok (some v)
  | .envVar vars strict =>
      match firstEnvValue env vars with
      | some x => .ok (some x)
      | Option.none =>
          if strict then
            .error (.valueError "None of the secret environment variables are set")
          else .ok Option.none

/-- The serialized form of a Secret, as produced by Secret.to_dict. -/
structure SecretDict : Type where
  kind : String
  env_vars : List String
  strict : Bool
deriving DecidableEq

/-- Secret.to_dict: env-var secrets serialize to a reference; token
secrets cannot be serialized. -/
def Secret.toDict : Secret → Except PyError SecretDict
  | .envVar vars strict => .ok { kind := "env_var", env_vars := vars, strict := strict }
  | .token _ => .error (.valueError "Cannot serialize token-based secret.")

/-- Secret.from_dict, as invoked by deserialize_secrets_inplace. -/
def Secret.fromDict (d : SecretDict) : Except PyError Secret :=
  if d.kind == "env_var" then .ok (.envVar d.env_vars d.strict)
  else .error (.valueError "Unknown secret type")

/-- The state of the module global deepl.http_client. -/
structure HttpClientState : Type where
  max_network_retries : Int
deriving DecidableEq

/-- The effective number of retries the client library performs for any
request of any adapter: the library retry loop reads the module global
deepl.http_client.max_network_retries at request time (external library
behavior, modelled here as a read of the threaded global state). -/
def effectiveMaxRetries (g : HttpClientState) : Int :=
  g.max_network_retries

/-- A deepl TextResult, as far as the adapters read it. -/
structure TextResult : Type where
  text : String
  detected_source_lang : String
deriving DecidableEq

/-- A haystack Document, as far as the adapters read and build it:
optional content, metadata dictionary, optional relevance score (scores
are opaque values the adapters only copy; they are modelled as
integers). -/
structure Document : Type where
  content : Option String
  meta : PyDict
  score : Option Int
deriving DecidableEq

/-! ## Adapter configuration (the fields set by the constructors)

The client handle built from the resolved credential performs the actual
network calls; it is modelled by the client function passed to run. -/

/-- Configuration of the single-text adapter
(components.py lines 96-114). -/
structure DeepLTextTranslator : Type where
  api_key : Secret
  max_retries : Int
  source_lang : Option String
  target_lang : String
  formality : Formality
  preserve_formatting : Bool
  split_sentences : SplitSentences
  context : Option String
  glossary : Option String
  tag_handling : Option String
  outline_detection : Bool
  non_splitting_tags : Option StrOrList
  splitting_tags : Option StrOrList
  ignore_tags : Option StrOrList
deriving DecidableEq

/-- Configuration of the document-batch adapter
(components.py lines 289-308). -/
structure DeepLDocumentTranslator : Type where
  api_key : Secret
  max_retries : Int
  source_lang : Option String
  target_lang : StrOrList
  formality : Formality
  preserve_formatting : Bool
  split_sentences : SplitSentences
  context : Option String
  glossary : Option String
  tag_handling : Option String
  outline_detection : Bool
  non_splitting_tags : Option StrOrList
  splitting_tags : Option StrOrList
  ignore_tags : Option StrOrList
  include_score : Bool
deriving DecidableEq

/-! ## Construction -/

/-- The keyword arguments of DeepLTextTranslator.__init__; target_lang
keeps its Python runtime type since the constructor inspects it. -/
structure TextInitArgs : Type where
  api_key : Secret
  source_lang : Option String
  target_lang : PyVal
  formality : Option (Sum String Formality)
  max_retries : Int
  preserve_formatting : Bool
  split_sentences : Option (Sum String SplitSentences)
  context : Option String
  glossary : Option String
  tag_handling : Option String
  outline_detection : Bool
  non_splitting_tags : Option StrOrList
  splitting_tags : Option StrOrList
  ignore_tags : Option StrOrList

/-- The keyword arguments of DeepLDocumentTranslator.__init__. -/
structure DocInitArgs : Type where
  api_key : Secret
  source_lang : Option String
  target_lang : PyVal
  formality : Option (Sum String Formality)
  max_retries : Int
  preserve_formatting : Bool
  split_sentences : Option (Sum String SplitSentences)
  context : Option String
  glossary : Option String
  tag_handling : Option String
  outline_detection : Bool
  non_splitting_tags : Option StrOrList
  splitting_tags : Option StrOrList
  ignore_tags : Option StrOrList
  include_score : Bool

/-- The text adapter target_lang check (components.py line 89): it must
be a non-empty string. -/
def textTargetLangOk : PyVal → Bool
  | .str s => !(s == "")
  | _ => false

/-- The document adapter target_lang check (components.py lines
278-281): a string, or a list whose elements are all strings. -/
def docTargetLangOk : PyVal → Bool
  | .str _ => true
  | .list xs => xs.all pyIsStr
  | _ => false

/-- The ValueError message of the text adapter target_lang check. -/
def targetLangTextMsg : String :=
  "`target_lang` must be a string representing a language code. " ++
  "For more information about DeepL supported languages, " ++
  "see https://developers.deepl.com/docs/resources/supported-languages"

/-- The TypeError message of the document adapter target_lang check. -/
def targetLangDocMsg : String :=
  "`target_lang` must be a string representing a language code " ++
  "or a list of language codes. " ++
  "For more information about DeepL supported languages, " ++
  "see https://developers.deepl.com/docs/resources/supported-languages"

/-- DeepLTextTranslator.__init__ (components.py lines 22-114).  Returns
the state of the http_client global after the call together with the
constructed adapter or the raised error.  Order as in the source: the
target_lang check, then the assignment to the module global, then the
client construction (which resolves the credential), then the enum
conversions. -/
def DeepLTextTranslator.init (env : Env) (g : HttpClientState)
    (args : TextInitArgs) : HttpClientState × Except PyError DeepLTextTranslator :=
  if textTargetLangOk args.target_lang then
    let g2 : HttpClientState := { max_network_retries := args.max_retries }
    match Secret.resolveValue env args.api_key with
    | .error e => (g2, .error e)
    | .ok _ =>
        match formalityFromArg args.formality with
        | .error e => (g2, .error e)
        | .ok formality =>
            match splitSentencesFromArg args.split_sentences with
            | .error e => (g2, .error e)
            | .ok split_sentences =>
                (g2, .ok
                  { api_key := args.api_key
                  , max_retries := args.max_retries
                  , source_lang := args.source_lang
                  , target_lang := pyAsString args.target_lang
                  , formality := formality
                  , preserve_formatting := args.preserve_formatting
                  , split_sentences := split_sentences
                  , context := args.context
                  , glossary := args.glossary
                  , tag_handling := args.tag_handling
                  , outline_detection := args.outline_detection
                  , non_splitting_tags := args.non_splitting_tags
                  , splitting_tags := args.splitting_tags
                  , ignore_tags := args.ignore_tags })
  else (g, .error (.valueError targetLangTextMsg))

/-- DeepLDocumentTranslator.__init__ (components.py lines 206-308). -/
def DeepLDocumentTranslator.init (env : Env) (g : HttpClientState)
    (args : DocInitArgs) : HttpClientState × Except PyError DeepLDocumentTranslator :=
  if docTargetLangOk args.target_lang then
    let g2 : HttpClientState := { max_network_retries := args.max_retries }
    match Secret.resolveValue env args.api_key with
    | .error e => (g2, .error e)
    | .ok _ =>
        match formalityFromArg args.formality with
        | .error e => (g2, .error e)
        | .ok formality =>
            match splitSentencesFromArg args.split_sentences with
            | .error e => (g2, .error e)
            | .ok split_sentences =>
                (g2, .ok
                  { api_key := args.api_key
                  , max_retries := args.max_retries
                  , source_lang := args.source_lang
                  , target_lang := pyAsStrOrList args.target_lang
                  , formality := formality
                  , preserve_formatting := args.preserve_formatting
                  , split_sentences := split_sentences
                  , context := args.context
                  , glossary := args.glossary
                  , tag_handling := args.tag_handling
                  , outline_detection := args.outline_detection
                  , non_splitting_tags := args.non_splitting_tags
                  , splitting_tags := args.splitting_tags
                  , ignore_tags := args.ignore_tags
                  , include_score := args.include_score })
  else (g, .error (.typeError targetLangDocMsg))

/-! ## Serialization -/

/-- The fully qualified type identifier default_to_dict stores for the
text adapter. -/
def textComponentType : String := "deepl_haystack.components.DeepLTextTranslator"

/-- The fully qualified type identifier for the document adapter. -/
def docComponentType : String := "deepl_haystack.components.DeepLDocumentTranslator"

/-- The mapping produced by DeepLTextTranslator.to_dict: the type
identifier plus init_parameters, with the credential as a reference and
the enums by their primitive value (components.py lines 165-186;
max_retries is not serialized). -/
structure SerializedText : Type where
  typeName : String
  api_key : SecretDict
  source_lang : Option String
  target_lang : String
  formality : String
  preserve_formatting : Bool
  split_sentences : String
  context : Option String
  glossary : Option String
  tag_handling : Option String
  outline_detection : Bool
  non_splitting_tags : Option StrOrList
  splitting_tags : Option StrOrList
  ignore_tags : Option StrOrList
deriving DecidableEq

/-- The mapping produced by DeepLDocumentTranslator.to_dict
(components.py lines 377-399). -/
structure SerializedDoc : Type where
  typeName : String
  api_key : SecretDict
  source_lang : Option String
  target_lang : StrOrList
  formality : String
  preserve_formatting : Bool
  split_sentences : String
  context : Option String
  glossary : Option String
  tag_handling : Option String
  outline_detection : Bool
  non_splitting_tags : Option StrOrList
  splitting_tags : Option StrOrList
  ignore_tags : Option StrOrList
  include_score : Bool
deriving DecidableEq

/-- DeepLTextTranslator.to_dict.  Serializing the credential raises for
token-based secrets, hence the Except. -/
def DeepLTextTranslator.toDict (a : DeepLTextTranslator) :
    Except PyError SerializedText :=
  match Secret.toDict a.api_key with
  | .error e => .error e
  | .ok ak => .ok
      { typeName := textComponentType
      , api_key := ak
      , source_lang := a.source_lang
      , target_lang := a.target_lang
      , formality := a.formality.value
      , preserve_formatting := a.preserve_formatting
      , split_sentences := a.split_sentences.value
      , context := a.context
      , glossary := a.glossary
      , tag_handling := a.tag_handling
      , outline_detection := a.outline_detection
      , non_splitting_tags := a.non_splitting_tags
      , splitting_tags := a.splitting_tags
      , ignore_tags := a.ignore_tags }

/-- DeepLDocumentTranslator.to_dict. -/
def DeepLDocumentTranslator.toDict (a : DeepLDocumentTranslator) :
    Except PyError SerializedDoc :=
  match Secret.toDict a.api_key with
  | .error e => .error e
  | .ok ak => .ok
      { typeName := docComponentType
      , api_key := ak
      , source_lang := a.source_lang
      , target_lang := a.target_lang
      , formality := a.formality.value
      , preserve_formatting := a.preserve_formatting
      , split_sentences := a.split_sentences.value
      , context := a.context
      , glossary := a.glossary
      , tag_handling := a.tag_handling
      , outline_detection := a.outline_detection
      , non_splitting_tags := a.non_splitting_tags
      , splitting_tags := a.splitting_tags
      , ignore_tags := a.ignore_tags
      , include_score := a.include_score }

/-- The PyVal passed to the constructor for a serialized target_lang
value. -/
def strOrListToPyVal : StrOrList → PyVal
  | .inl s => PyVal.str s
  | .inr l => PyVal.list (l.map PyVal.str)

/-- DeepLTextTranslator.from_dict (components.py lines 188-199): the
secret reference is deserialized in place, then default_from_dict checks
the type identifier and calls the constructor with the stored
init_parameters (max_retries falls back to its default 5). -/
def DeepLTextTranslator.fromDict (env : Env) (g : HttpClientState)
    (d : SerializedText) : HttpClientState × Except PyError DeepLTextTranslator :=
  match Secret.fromDict d.api_key with
  | .error e => (g, .error e)
  | .ok sk =>
      if d.typeName == textComponentType then
        DeepLTextTranslator.init env g
          { api_key := sk
          , source_lang := d.source_lang
          , target_lang := PyVal.str d.target_lang
          , formality := some (Sum.inl d.formality)
          , max_retries := 5
          , preserve_formatting := d.preserve_formatting
          , split_sentences := some (Sum.inl d.split_sentences)
          , context := d.context
          , glossary := d.glossary
          , tag_handling := d.tag_handling
          , outline_detection := d.outline_detection
          , non_splitting_tags := d.non_splitting_tags
          , splitting_tags := d.splitting_tags
          , ignore_tags := d.ignore_tags }
      else (g, .error (.valueError "DeserializationError: type mismatch"))

/-- DeepLDocumentTranslator.from_dict (components.py lines 401-412). -/
def DeepLDocumentTranslator.fromDict (env : Env) (g : HttpClientState)
    (d : SerializedDoc) : HttpClientState × Except PyError DeepLDocumentTranslator :=
  match Secret.fromDict d.api_key with
  | .error e => (g, .error e)
  | .ok sk =>
      if d.typeName == docComponentType then
        DeepLDocumentTranslator.init env g
          { api_key := sk
          , source_lang := d.source_lang
          , target_lang := strOrListToPyVal d.target_lang
          , formality := some (Sum.inl d.formality)
          , max_retries := 5
          , preserve_formatting := d.preserve_formatting
          , split_sentences := some (Sum.inl d.split_sentences)
          , context := d.context
          , glossary := d.glossary
          , tag_handling := d.tag_handling
          , outline_detection := d.outline_detection
          , non_splitting_tags := d.non_splitting_tags
          , splitting_tags := d.splitting_tags
          , ignore_tags := d.ignore_tags
          , include_score := d.include_score }
      else (g, .error (.valueError "DeserializationError: type mismatch"))

/-! ## The run methods

Every outbound call is recorded; the client is a function from the
recorded call parameters to the remote result. -/

/-- The keyword arguments of one client.translate_text call made by the
text adapter (components.py lines 142-156). -/
structure TextCall : Type where
  text : String
  source_lang : Option String
  target_lang : String
  formality : Formality
  preserve_formatting : Bool
  split_sentences : SplitSentences
  context : Option String
  glossary : Option String
  tag_handling : Option String
  outline_detection : Bool
  non_splitting_tags : Option StrOrList
  splitting_tags : Option StrOrList
  ignore_tags : Option StrOrList
deriving DecidableEq

/-- The remote client of the text adapter. -/
abbrev TextClient := TextCall → TextResult

/-- The value returned by DeepLTextTranslator.run. -/
structure TextRunOutput : Type where
  translation : String
  meta : PyDict
deriving DecidableEq

/-- The TypeError message of the text adapter run input check. -/
def textRunTypeMsg : String :=
  "DeepLTextTranslator expects a string as an input. " ++
  "In case you want to translate a list of Documents, " ++
  "please use the DeepLDocumentTranslator."

/-- DeepLTextTranslator.run (components.py lines 116-163): isinstance
check, emptiness check, one client call, then the result is reshaped.
The second component is the trace of client calls. -/
def DeepLTextTranslator.run (a : DeepLTextTranslator) (client : TextClient)
    (text : PyVal) (source_lang : Option String) :
    Except PyError TextRunOutput × List TextCall :=
  match text with
  | .str s =>
      if s == "" then (.error (.valueError "Empty text provided."), [])
      else
        let call : TextCall :=
          { text := s
          , source_lang := resolveSourceLang source_lang a.source_lang
          , target_lang := a.target_lang
          , formality := a.formality
          , preserve_formatting := a.preserve_formatting
          , split_sentences := a.split_sentences
          , context := a.context
          , glossary := a.glossary
          , tag_handling := a.tag_handling
          , outline_detection := a.outline_detection
          , non_splitting_tags := a.non_splitting_tags
          , splitting_tags := a.splitting_tags
          , ignore_tags := a.ignore_tags }
        let translation := client call
        (.ok { translation := translation.text
             , meta := [("source_lang", translation.detected_source_lang),
                        ("language", a.target_lang)] }, [call])
  | _ => (.error (.typeError textRunTypeMsg), [])

/-- The keyword arguments of one client.translate_text call made by the
document adapter (components.py lines 346-351): the batch of texts plus
source language, target language and formality. -/
structure BatchCall : Type where
  texts : List String
  source_lang : Option String
  target_lang : String
  formality : Formality
deriving DecidableEq

/-- The remote client of the document adapter: one result per submitted
text, in order (the DeepL API contract; stated as a hypothesis where a
theorem needs it). -/
abbrev DocClient := BatchCall → List TextResult

/-- The value returned by DeepLDocumentTranslator.run together with the
trace of client calls and of surfaced warnings. -/
structure DocRunOutput : Type where
  documents : List Document
  calls : List BatchCall
  warnings : List String
deriving DecidableEq

/-- The warning surfaced on an empty input list (components.py line 334). -/
def noDocumentsWarning : String := "No documents provided for translation."

/-- The warning surfaced before overwriting reserved metadata keys
(components.py lines 356-359). -/
def overwriteWarning : String :=
  "Document meta already contains language or source_lang. " ++
  "These fields will be overwritten."

/-- self.target_lang if it is a list else [self.target_lang]
(components.py lines 337-341). -/
def targetLanguages (a : DeepLDocumentTranslator) : List String :=
  match a.target_lang with
  | .inl s => [s]
  | .inr l => l

/-- `[doc.content for doc in documents if doc.content]` (components.py
line 347): the contents that are present and non-empty, in order. -/
def batchTexts (documents : List Document) : List String :=
  documents.filterMap (fun d =>
    match d.content with
    | some c => if c == "" then Option.none else some c
    | Option.none => Option.none)

/-- The condition of the overwrite warning (components.py line 355):
either reserved key present with a truthy value. -/
def reservedKeyTruthy (m : PyDict) : Bool :=
  optTruthy (dictGet m "language") || optTruthy (dictGet m "source_lang")

/-- `{**document.meta, "source_lang": detected, "language": lang}`
(components.py lines 361-365). -/
def overlayMeta (m : PyDict) (detected lang : String) : PyDict :=
  dictSet (dictSet m "source_lang" detected) "language" lang

/-- One output document of the document adapter loop body
(components.py lines 367-373). -/
def translatedDocument (a : DeepLDocumentTranslator) (target_lang : String)
    (document : Document) (translation : TextResult) : Document :=
  { content := some translation.text
  , meta := overlayMeta document.meta translation.detected_source_lang target_lang
  , score := if a.include_score then document.score else Option.none }

/-- The parameters of the one client call made for a target language
(components.py lines 346-351). -/
def docBatchCall (a : DeepLDocumentTranslator) (documents : List Document)
    (source_lang : Option String) (target_lang : String) : BatchCall :=
  { texts := batchTexts documents
  , source_lang := resolveSourceLang source_lang a.source_lang
  , target_lang := target_lang
  , formality := a.formality }

/-- DeepLDocumentTranslator.run (components.py lines 310-375).  The
input list is typed, so the isinstance check of lines 325-331 always
passes; an empty list short-circuits with a warning and no client call;
otherwise one client call is made per target language and the returned
translations are zipped against the full input list, emitting the
overwrite warning for every zipped document whose metadata carries a
truthy reserved key. -/
def DeepLDocumentTranslator.run (a : DeepLDocumentTranslator)
    (client : DocClient) (documents : List Document)
    (source_lang : Option String) : DocRunOutput :=
  if documents.isEmpty then
    { documents := [], calls := [], warnings := [noDocumentsWarning] }
  else
    { documents := (targetLanguages a).flatMap (fun tl =>
        (documents.zip (client (docBatchCall a documents source_lang tl))).map
          (fun p => translatedDocument a tl p.1 p.2))
    , calls := (targetLanguages a).map (docBatchCall a documents source_lang)
    , warnings := (targetLanguages a).flatMap (fun tl =>
        ((documents.zip (client (docBatchCall a documents source_lang tl))).filter
          (fun p => reservedKeyTruthy p.1.meta)).map
          (fun _ => overwriteWarning)) }

/-! ## Library of facts about the embedded definitions -/

theorem formality_ofString_value (f : Formality) :
    Formality.ofString f.value = .ok f := by
  cases f <;> rfl

theorem formality_value_ne_empty (f : Formality) : (f.value == "") = false := by
  cases f <;> rfl

theorem splitSentences_ofString_value (f : SplitSentences) :
    SplitSentences.ofString f.value = .ok f := by
  cases f <;> rfl

theorem splitSentences_value_ne_empty (f : SplitSentences) :
    (f.value == "") = false := by
  cases f <;> rfl

theorem formalityFromArg_value (f : Formality) :
    formalityFromArg (some (Sum.inl f.value)) = .ok f := by
  rw [formalityFromArg, formality_value_ne_empty, if_neg (by simp),
    formality_ofString_value]

theorem splitSentencesFromArg_value (f : SplitSentences) :
    splitSentencesFromArg (some (Sum.inl f.value)) = .ok f := by
  rw [splitSentencesFromArg, splitSentences_value_ne_empty, if_neg (by simp),
    splitSentences_ofString_value]

theorem length_flatMap_const {α β : Type} (K : Nat) :
    ∀ (ls : List α) (f : α → List β), (∀ x ∈ ls, (f x).length = K) →
      (ls.flatMap f).length = ls.length * K
  | [], _, _ => by simp
  | a :: ls, f, h => by
      have ha := h a (by simp)
      have ih := length_flatMap_const K ls f (fun x hx => h x (by simp [hx]))
      rw [List.flatMap_cons, List.length_append, ha, ih, List.length_cons,
        Nat.succ_mul, Nat.add_comm]

theorem getElem?_flatMap_const {α β : Type} (K : Nat) :
    ∀ (ls : List α) (f : α → List β), (∀ x ∈ ls, (f x).length = K) →
    ∀ (q r : Nat), r < K →
      (ls.flatMap f)[q * K + r]? = ls[q]?.bind (fun x => (f x)[r]?)
  | [], _, _, q, r, _ => by simp
  | a :: ls, f, h, 0, r, hr => by
      have ha := h a (by simp)
      rw [List.flatMap_cons, Nat.zero_mul, Nat.zero_add, List.getElem?_append,
        if_pos (ha ▸ hr)]
      simp
  | a :: ls, f, h, Nat.succ q, r, hr => by
      have ha := h a (by simp)
      have ih := getElem?_flatMap_const K ls f (fun x hx => h x (by simp [hx])) q r hr
      have harith : (q + 1) * K + r = (f a).length + (q * K + r) := by
        rw [ha, Nat.succ_mul]; ring
      rw [List.flatMap_cons, harith,
        List.getElem?_append_right (Nat.le_add_right _ _),
        Nat.add_sub_cancel_left, ih, List.getElem?_cons_succ]

theorem getElem?_zip_map {α β γ : Type} (g : α × β → γ) :
    ∀ (l : List α) (l2 : List β) (r : Nat),
      ((l.zip l2).map g)[r]?
        = l[r]?.bind (fun x => (l2[r]?).map (fun y => g (x, y)))
  | [], l2, r => by simp
  | a :: l, [], r => by
      cases h : (a :: l)[r]? <;> simp [h]
  | a :: l, b :: l2, 0 => by simp [List.zip_cons_cons]
  | a :: l, b :: l2, Nat.succ r => by
      simp only [List.zip_cons_cons, List.map_cons, List.getElem?_cons_succ]
      exact getElem?_zip_map g l l2 r

theorem batchTexts_length_le (documents : List Document) :
    (batchTexts documents).length ≤ documents.length :=
  List.length_filterMap_le _ _

theorem batchTexts_cons_some (d : Document) (t : List Document) (s : String)
    (hs : d.content = some s) (hne : s ≠ "") :
    batchTexts (d :: t) = s :: batchTexts t := by
  simp [batchTexts, List.filterMap_cons, hs, hne]

theorem batchTexts_length_eq (documents : List Document)
    (hc : ∀ d ∈ documents, ∃ s, d.content = some s ∧ s ≠ "") :
    (batchTexts documents).length = documents.length := by
  induction documents with
  | nil => rfl
  | cons d t ih =>
      obtain ⟨s, hs, hne⟩ := hc d (by simp)
      have ht := ih (fun x hx => hc x (by simp [hx]))
      rw [batchTexts_cons_some d t s hs hne, List.length_cons, List.length_cons, ht]

/-- The document list a non-empty run returns, unfolded. -/
theorem run_documents_eq (a : DeepLDocumentTranslator) (client : DocClient)
    (documents : List Document) (sl : Option String) (hne : documents ≠ []) :
    (a.run client documents sl).documents
      = (targetLanguages a).flatMap (fun tl =>
          (documents.zip (client (docBatchCall a documents sl tl))).map
            (fun p => translatedDocument a tl p.1 p.2)) := by
  have hemp : documents.isEmpty = false := by
    cases documents with
    | nil => exact absurd rfl hne
    | cons d t => rfl
  simp [DeepLDocumentTranslator.run, hemp]

/-- Each per-language block of the output has as many records as texts
were submitted, provided the client returns one result per text. -/
theorem block_length (a : DeepLDocumentTranslator) (client : DocClient)
    (documents : List Document) (sl : Option String)
    (hcl : ∀ c : BatchCall, (client c).length = c.texts.length) (tl : String) :
    ((documents.zip (client (docBatchCall a documents sl tl))).map
        (fun p => translatedDocument a tl p.1 p.2)).length
      = (batchTexts documents).length := by
  rw [List.length_map, List.length_zip, hcl]
  show min documents.length (docBatchCall a documents sl tl).texts.length = _
  rw [docBatchCall]
  exact min_eq_right (batchTexts_length_le documents)

/-- Full characterization of the output record list of a non-empty run:
its length, and the record at position q * K + r (q-th target language,
r-th zipped position), provided the client returns one result per
submitted text. -/
theorem run_documents_spec (a : DeepLDocumentTranslator) (client : DocClient)
    (documents : List Document) (sl : Option String)
    (hcl : ∀ c : BatchCall, (client c).length = c.texts.length)
    (hne : documents ≠ []) :
    ((a.run client documents sl).documents.length
        = (targetLanguages a).length * (batchTexts documents).length)
    ∧ ∀ q r, r < (batchTexts documents).length →
        (a.run client documents sl).documents[q * (batchTexts documents).length + r]?
          = (targetLanguages a)[q]?.bind (fun tl =>
              documents[r]?.bind (fun d =>
                ((client (docBatchCall a documents sl tl))[r]?).map
                  (fun tr => translatedDocument a tl d tr))) := by
  have hK : ∀ tl ∈ targetLanguages a,
      ((documents.zip (client (docBatchCall a documents sl tl))).map
          (fun p => translatedDocument a tl p.1 p.2)).length
        = (batchTexts documents).length :=
    fun tl _ => block_length a client documents sl hcl tl
  constructor
  · rw [run_documents_eq a client documents sl hne]
    exact length_flatMap_const _ _ _ hK
  · intro q r hr
    rw [run_documents_eq a client documents sl hne,
      getElem?_flatMap_const _ _ _ hK q r hr]
    cases hq : (targetLanguages a)[q]? with
    | none => rfl
    | some tl =>
        exact getElem?_zip_map (fun p => translatedDocument a tl p.1 p.2)
          documents (client (docBatchCall a documents sl tl)) r

/-- An environment with the default credential variable set. -/
def envW : Env := [("DEEPL_API_KEY", "test-api-key")]

/-- An http_client global state. -/
def gW : HttpClientState := { max_network_retries := 5 }

/-- The default strict env-var secret. -/
def secretW : Secret := .envVar ["DEEPL_API_KEY"] true

/-- A text adapter with a configured default source language. -/
def textAdapterW : DeepLTextTranslator :=
  { api_key := secretW, max_retries := 5, source_lang := some "DE"
  , target_lang := "ES", formality := .default, preserve_formatting := false
  , split_sentences := .all, context := Option.none, glossary := Option.none
  , tag_handling := Option.none, outline_detection := true
  , non_splitting_tags := Option.none, splitting_tags := Option.none
  , ignore_tags := Option.none }

/-- A text adapter without a configured default source language. -/
def textAdapterNoSrcW : DeepLTextTranslator :=
  { textAdapterW with source_lang := Option.none }

/-- A document adapter with a single target language. -/
def docAdapterW : DeepLDocumentTranslator :=
  { api_key := secretW, max_retries := 5, source_lang := some "DE"
  , target_lang := .inl "ES", formality := .default
  , preserve_formatting := false, split_sentences := .all
  , context := Option.none, glossary := Option.none
  , tag_handling := Option.none, outline_detection := true
  , non_splitting_tags := Option.none, splitting_tags := Option.none
  , ignore_tags := Option.none, include_score := true }

/-- A document adapter with a two-language target list. -/
def docAdapterLW : DeepLDocumentTranslator :=
  { docAdapterW with target_lang := .inr ["ES", "FR"] }

/-- A document adapter with score propagation disabled. -/
def docAdapterNoScoreW : DeepLDocumentTranslator :=
  { docAdapterW with include_score := false }

/-- A text client echoing the submitted text with a marker. -/
def textClientW : TextClient :=
  fun c => { text := "T:" ++ c.text, detected_source_lang := "DE" }

/-- A document client translating each submitted text with a marker;
it returns one result per text, as the remote API does. -/
def docClientW : DocClient :=
  fun c => c.texts.map (fun t => { text := "T:" ++ t, detected_source_lang := "DE" })

theorem docClientW_length (c : BatchCall) : (docClientW c).length = c.texts.length :=
  List.length_map _ _

def docW1 : Document := { content := some "hola", meta := [("k", "v")], score := some 7 }

def docW2 : Document := { content := some "adios", meta := [], score := Option.none }

def docEmptyW : Document :=
  { content := Option.none, meta := [("m", "1")], score := some 3 }

/-- C4: For every document-batch adapter, run applied to the empty list
returns a result whose documents field is the empty list, and the trace
of calls to the remote translation client is empty (components.py lines
333-335 short-circuit before the per-language loop). -/
theorem C4_empty_run (a : DeepLDocumentTranslator) (client : DocClient)
    (source_lang : Option String) :
    (a.run client [] source_lang).documents = []
    ∧ (a.run client [] source_lang).calls = [] :=
  ⟨rfl, rfl⟩

/-- C5: For every call to the single-text adapter run method, a
non-string input fails with a TypeError and the empty string fails with
a ValueError, in both cases with an empty client-call trace, so the
failure precedes any network call (components.py lines 132-140). -/
theorem C5_text_run_validation (a : DeepLTextTranslator) (client : TextClient)
    (text : PyVal) (source_lang : Option String) :
    (pyIsStr text = false →
      a.run client text source_lang
        = (.error (.typeError textRunTypeMsg), []))
    ∧ a.run client (PyVal.str "") source_lang
        = (.error (.valueError "Empty text provided."), []) := by
  constructor
  · intro h
    cases text with
    | str s => simp [pyIsStr] at h
    | int n => rfl
    | list xs => rfl
    | noneVal => rfl
    | obj name => rfl
  · rfl

/-- C5 witness: the validation theorem evaluated at an integer input and
at the empty string. -/
theorem C5_text_run_validation_witness :
    pyIsStr (PyVal.int 7) = false
    ∧ textAdapterW.run textClientW (PyVal.int 7) Option.none
        = (.error (.typeError textRunTypeMsg), [])
    ∧ textAdapterW.run textClientW (PyVal.str "") Option.none
        = (.error (.valueError "Empty text provided."), []) :=
  ⟨rfl,
   (C5_text_run_validation textAdapterW textClientW (PyVal.int 7) Option.none).1 rfl,
   (C5_text_run_validation textAdapterW textClientW (PyVal.str "") Option.none).2⟩

/-- Whether an Except value is a raised TypeError. -/
def isTypeErrorResult {α : Type} : Except PyError α → Bool
  | .error (.typeError _) => true
  | _ => false

/-- Constructor arguments with an integer target_lang, for the text
adapter. -/
def badTargetArgsText : TextInitArgs :=
  { api_key := secretW, source_lang := Option.none, target_lang := PyVal.int 3
  , formality := Option.none, max_retries := 5, preserve_formatting := false
  , split_sentences := Option.none, context := Option.none
  , glossary := Option.none, tag_handling := Option.none
  , outline_detection := true, non_splitting_tags := Option.none
  , splitting_tags := Option.none, ignore_tags := Option.none }

/-- Constructor arguments with a list-containing-a-non-string
target_lang, for the document adapter. -/
def badTargetArgsDoc : DocInitArgs :=
  { api_key := secretW, source_lang := Option.none
  , target_lang := PyVal.list [PyVal.str "ES", PyVal.int 0]
  , formality := Option.none, max_retries := 5, preserve_formatting := false
  , split_sentences := Option.none, context := Option.none
  , glossary := Option.none, tag_handling := Option.none
  , outline_detection := true, non_splitting_tags := Option.none
  , splitting_tags := Option.none, ignore_tags := Option.none
  , include_score := true }

/-- C6 counterexample: constructing the TEXT adapter with an integer
target_lang raises a ValueError, not the TypeError the claim states
(components.py lines 89-94 raise ValueError; only the document adapter,
lines 278-287, raises TypeError). -/
theorem C6_counterexample :
    (DeepLTextTranslator.init envW gW badTargetArgsText).2
        = .error (.valueError targetLangTextMsg)
    ∧ isTypeErrorResult (DeepLTextTranslator.init envW gW badTargetArgsText).2
        = false :=
  ⟨rfl, rfl⟩

/-- C6 (amended): constructing the document adapter with a target_lang
that is an integer or a list containing a non-string fails with a
TypeError; the text adapter rejects the same inputs, but with a
ValueError.  Both checks run first in the constructor, before the client
handle is built, so no network call is involved. -/
theorem C6_amended_init_errors (env : Env) (g : HttpClientState)
    (ta : TextInitArgs) (da : DocInitArgs) :
    ((∃ n, ta.target_lang = PyVal.int n) ∨ (∃ xs, ta.target_lang = PyVal.list xs) →
      (DeepLTextTranslator.init env g ta).2
        = .error (.valueError targetLangTextMsg))
    ∧ ((∃ n, da.target_lang = PyVal.int n)
        ∨ (∃ xs x, da.target_lang = PyVal.list xs ∧ x ∈ xs ∧ pyIsStr x = false) →
      (DeepLDocumentTranslator.init env g da).2
        = .error (.typeError targetLangDocMsg)) := by
  constructor
  · intro h
    rcases h with ⟨n, hn⟩ | ⟨xs, hx⟩
    · simp [DeepLTextTranslator.init, hn, textTargetLangOk]
    · simp [DeepLTextTranslator.init, hx, textTargetLangOk]
  · intro h
    rcases h with ⟨n, hn⟩ | ⟨xs, x, hx, hmem, hstr⟩
    · simp [DeepLDocumentTranslator.init, hn, docTargetLangOk]
    · have hall : xs.all pyIsStr = false := by
        rw [List.all_eq_false]
        exact ⟨x, hmem, by simp [hstr]⟩
      simp [DeepLDocumentTranslator.init, hx, docTargetLangOk, hall]

/-- C6 (amended) witness: the amended theorem evaluated at an integer
target_lang for the text adapter and a mixed list for the document
adapter. -/
theorem C6_amended_init_errors_witness :
    (DeepLTextTranslator.init envW gW badTargetArgsText).2
        = .error (.valueError targetLangTextMsg)
    ∧ (DeepLDocumentTranslator.init envW gW badTargetArgsDoc).2
        = .error (.typeError targetLangDocMsg) :=
  ⟨(C6_amended_init_errors envW gW badTargetArgsText badTargetArgsDoc).1
      (Or.inl ⟨3, rfl⟩),
   (C6_amended_init_errors envW gW badTargetArgsText badTargetArgsDoc).2
      (Or.inr ⟨[PyVal.str "ES", PyVal.int 0], PyVal.int 0, rfl, by simp, rfl⟩)⟩

/-- A successful document adapter construction leaves the module global
holding its max_retries, and stores that value in the adapter. -/
theorem docInit_ok_retries (env : Env) (g g2 : HttpClientState)
    (args : DocInitArgs) (ad : DeepLDocumentTranslator)
    (h : DeepLDocumentTranslator.init env g args = (g2, .ok ad)) :
    g2.max_network_retries = args.max_retries
    ∧ ad.max_retries = args.max_retries := by
  rw [DeepLDocumentTranslator.init] at h
  by_cases hc : docTargetLangOk args.target_lang
  · rw [if_pos hc] at h
    cases hres : Secret.resolveValue env args.api_key with
    | error e => rw [hres] at h; simp at h
    | ok v =>
        rw [hres] at h
        cases hf : formalityFromArg args.formality with
        | error e => rw [hf] at h; simp at h
        | ok fm =>
            rw [hf] at h
            cases hs : splitSentencesFromArg args.split_sentences with
            | error e => rw [hs] at h; simp at h
            | ok ss =>
                rw [hs] at h
                rw [Prod.mk.injEq] at h
                obtain ⟨hg, ha⟩ := h
                rw [Except.ok.injEq] at ha
                subst hg
                subst ha
                exact ⟨rfl, rfl⟩
  · rw [if_neg hc] at h
    simp at h

/-- The text adapter analogue of init_ok_retries. -/
theorem textInit_ok_retries (env : Env) (g g2 : HttpClientState)
    (args : TextInitArgs) (ad : DeepLTextTranslator)
    (h : DeepLTextTranslator.init env g args = (g2, .ok ad)) :
    g2.max_network_retries = args.max_retries
    ∧ ad.max_retries = args.max_retries := by
  rw [DeepLTextTranslator.init] at h
  by_cases hc : textTargetLangOk args.target_lang
  · rw [if_pos hc] at h
    cases hres : Secret.resolveValue env args.api_key with
    | error e => rw [hres] at h; simp at h
    | ok v =>
        rw [hres] at h
        cases hf : formalityFromArg args.formality with
        | error e => rw [hf] at h; simp at h
        | ok fm =>
            rw [hf] at h
            cases hs : splitSentencesFromArg args.split_sentences with
            | error e => rw [hs] at h; simp at h
            | ok ss =>
                rw [hs] at h
                rw [Prod.mk.injEq] at h
                obtain ⟨hg, ha⟩ := h
                rw [Except.ok.injEq] at ha
                subst hg
                subst ha
                exact ⟨rfl, rfl⟩
  · rw [if_neg hc] at h
    simp at h

/-- C10: Constructing either adapter assigns its max_retries to the
process-global http_client setting the client library consults at
request time; constructing a second adapter with a different max_retries
therefore changes the effective retry count for every previously
constructed adapter, while the first adapter itself (in particular its
stored max_retries configuration field) is left unchanged. -/
theorem C10_global_max_retries (env : Env) (g0 g1 g2 : HttpClientState)
    (a1 : DocInitArgs) (a2 : TextInitArgs)
    (ad1 : DeepLDocumentTranslator) (ad2 : DeepLTextTranslator)
    (h1 : DeepLDocumentTranslator.init env g0 a1 = (g1, .ok ad1))
    (h2 : DeepLTextTranslator.init env g1 a2 = (g2, .ok ad2)) :
    effectiveMaxRetries g1 = a1.max_retries
    ∧ effectiveMaxRetries g2 = a2.max_retries
    ∧ ad1.max_retries = a1.max_retries
    ∧ (a2.max_retries ≠ a1.max_retries →
        effectiveMaxRetries g2 ≠ ad1.max_retries) := by
  obtain ⟨hg1, ha1⟩ := docInit_ok_retries env g0 g1 a1 ad1 h1
  obtain ⟨hg2, ha2⟩ := textInit_ok_retries env g1 g2 a2 ad2 h2
  exact ⟨hg1, hg2, ha1, fun hne => by rw [effectiveMaxRetries, hg2, ha1]; exact hne⟩

/-- Valid document adapter constructor arguments with max_retries 3. -/
def docArgs3 : DocInitArgs :=
  { api_key := secretW, source_lang := Option.none
  , target_lang := PyVal.str "EN-US", formality := Option.none
  , max_retries := 3, preserve_formatting := false
  , split_sentences := Option.none, context := Option.none
  , glossary := Option.none, tag_handling := Option.none
  , outline_detection := true, non_splitting_tags := Option.none
  , splitting_tags := Option.none, ignore_tags := Option.none
  , include_score := true }

/-- Valid text adapter constructor arguments with max_retries 9. -/
def textArgs9 : TextInitArgs :=
  { api_key := secretW, source_lang := Option.none
  , target_lang := PyVal.str "EN-US", formality := Option.none
  , max_retries := 9, preserve_formatting := false
  , split_sentences := Option.none, context := Option.none
  , glossary := Option.none, tag_handling := Option.none
  , outline_detection := true, non_splitting_tags := Option.none
  , splitting_tags := Option.none, ignore_tags := Option.none }

/-- The adapter built by docArgs3. -/
def docAd3 : DeepLDocumentTranslator :=
  { api_key := secretW, max_retries := 3, source_lang := Option.none
  , target_lang := .inl "EN-US", formality := .default
  , preserve_formatting := false, split_sentences := .all
  , context := Option.none, glossary := Option.none
  , tag_handling := Option.none, outline_detection := true
  , non_splitting_tags := Option.none, splitting_tags := Option.none
  , ignore_tags := Option.none, include_score := true }

/-- The adapter built by textArgs9. -/
def textAd9 : DeepLTextTranslator :=
  { api_key := secretW, max_retries := 9, source_lang := Option.none
  , target_lang := "EN-US", formality := .default
  , preserve_formatting := false, split_sentences := .all
  , context := Option.none, glossary := Option.none
  , tag_handling := Option.none, outline_detection := true
  , non_splitting_tags := Option.none, splitting_tags := Option.none
  , ignore_tags := Option.none }

/-- C10 witness: two consecutive constructions with retry counts 3 and
9; the global ends at 9 while the first adapter still stores 3. -/
theorem C10_global_max_retries_witness :
    effectiveMaxRetries { max_network_retries := 3 } = docArgs3.max_retries
    ∧ effectiveMaxRetries { max_network_retries := 9 } = textArgs9.max_retries
    ∧ docAd3.max_retries = docArgs3.max_retries
    ∧ effectiveMaxRetries { max_network_retries := 9 } ≠ docAd3.max_retries := by
  have h := C10_global_max_retries envW gW { max_network_retries := 3 }
      { max_network_retries := 9 } docArgs3 textArgs9 docAd3 textAd9
      rfl rfl
  exact ⟨h.1, h.2.1, h.2.2.1, h.2.2.2 (by decide)⟩

/-- A text adapter construction on valid arguments, fully computed. -/
theorem textInit_ok (env : Env) (g : HttpClientState)
    (args : TextInitArgs) (v : Option String) (fm : Formality)
    (ss : SplitSentences)
    (hok : textTargetLangOk args.target_lang = true)
    (hres : Secret.resolveValue env args.api_key = .ok v)
    (hf : formalityFromArg args.formality = .ok fm)
    (hsp : splitSentencesFromArg args.split_sentences = .ok ss) :
    DeepLTextTranslator.init env g args
      = ({ max_network_retries := args.max_retries },
         .ok { api_key := args.api_key
             , max_retries := args.max_retries
             , source_lang := args.source_lang
             , target_lang := pyAsString args.target_lang
             , formality := fm
             , preserve_formatting := args.preserve_formatting
             , split_sentences := ss
             , context := args.context
             , glossary := args.glossary
             , tag_handling := args.tag_handling
             , outline_detection := args.outline_detection
             , non_splitting_tags := args.non_splitting_tags
             , splitting_tags := args.splitting_tags
             , ignore_tags := args.ignore_tags }) := by
  rw [DeepLTextTranslator.init, if_pos hok, hres, hf, hsp]

/-- A document adapter construction on valid arguments, fully
computed. -/
theorem docInit_ok (env : Env) (g : HttpClientState)
    (args : DocInitArgs) (v : Option String) (fm : Formality)
    (ss : SplitSentences)
    (hok : docTargetLangOk args.target_lang = true)
    (hres : Secret.resolveValue env args.api_key = .ok v)
    (hf : formalityFromArg args.formality = .ok fm)
    (hsp : splitSentencesFromArg args.split_sentences = .ok ss) :
    DeepLDocumentTranslator.init env g args
      = ({ max_network_retries := args.max_retries },
         .ok { api_key := args.api_key
             , max_retries := args.max_retries
             , source_lang := args.source_lang
             , target_lang := pyAsStrOrList args.target_lang
             , formality := fm
             , preserve_formatting := args.preserve_formatting
             , split_sentences := ss
             , context := args.context
             , glossary := args.glossary
             , tag_handling := args.tag_handling
             , outline_detection := args.outline_detection
             , non_splitting_tags := args.non_splitting_tags
             , splitting_tags := args.splitting_tags
             , ignore_tags := args.ignore_tags
             , include_score := args.include_score }) := by
  rw [DeepLDocumentTranslator.init, if_pos hok, hres, hf, hsp]

theorem docTargetLangOk_strOrListToPyVal (x : StrOrList) :
    docTargetLangOk (strOrListToPyVal x) = true := by
  cases x with
  | inl s => rfl
  | inr l =>
      simp only [strOrListToPyVal, docTargetLangOk, List.all_eq_true]
      intro y hy
      obtain ⟨s, -, hs⟩ := List.mem_map.mp hy
      rw [← hs]
      rfl

theorem pyAsStrOrList_strOrListToPyVal (x : StrOrList) :
    pyAsStrOrList (strOrListToPyVal x) = x := by
  cases x with
  | inl s => rfl
  | inr l =>
      simp only [strOrListToPyVal, pyAsStrOrList, List.map_map, Sum.inr.injEq]
      induction l with
      | nil => rfl
      | cons x xs ih => simp only [List.map_cons, Function.comp_apply, pyAsString, ih]

/-- The round-trip property of the text adapter at one configuration:
serialization succeeds, deserialization succeeds, and every
configuration field of the rebuilt adapter equals the original. -/
def TextRoundtripOk (env : Env) (g : HttpClientState)
    (a : DeepLTextTranslator) : Prop :=
  ∃ (d : SerializedText) (b : DeepLTextTranslator),
    a.toDict = .ok d
    ∧ (DeepLTextTranslator.fromDict env g d).2 = .ok b
    ∧ b.api_key = a.api_key
    ∧ b.source_lang = a.source_lang
    ∧ b.target_lang = a.target_lang
    ∧ b.formality = a.formality
    ∧ b.preserve_formatting = a.preserve_formatting
    ∧ b.split_sentences = a.split_sentences
    ∧ b.context = a.context
    ∧ b.glossary = a.glossary
    ∧ b.tag_handling = a.tag_handling
    ∧ b.outline_detection = a.outline_detection
    ∧ b.non_splitting_tags = a.non_splitting_tags
    ∧ b.splitting_tags = a.splitting_tags
    ∧ b.ignore_tags = a.ignore_tags

/-- The round-trip property of the document adapter at one
configuration. -/
def DocRoundtripOk (env : Env) (g : HttpClientState)
    (a : DeepLDocumentTranslator) : Prop :=
  ∃ (d : SerializedDoc) (b : DeepLDocumentTranslator),
    a.toDict = .ok d
    ∧ (DeepLDocumentTranslator.fromDict env g d).2 = .ok b
    ∧ b.api_key = a.api_key
    ∧ b.source_lang = a.source_lang
    ∧ b.target_lang = a.target_lang
    ∧ b.formality = a.formality
    ∧ b.preserve_formatting = a.preserve_formatting
    ∧ b.split_sentences = a.split_sentences
    ∧ b.context = a.context
    ∧ b.glossary = a.glossary
    ∧ b.tag_handling = a.tag_handling
    ∧ b.outline_detection = a.outline_detection
    ∧ b.non_splitting_tags = a.non_splitting_tags
    ∧ b.splitting_tags = a.splitting_tags
    ∧ b.ignore_tags = a.ignore_tags
    ∧ b.include_score = a.include_score

/-- C3: from_dict(to_dict(adapter)) rebuilds an adapter with every
listed configuration field equal to the original, for both adapters.
Hypotheses: the credential is an env-var reference (token secrets cannot
be serialized at all by the host framework) and it resolves in the given
environment (the rebuilt constructor resolves it to build its client
handle); the text adapter target_lang is non-empty (its constructor
rejects the empty string, which is also unreachable from a successful
construction). -/
theorem C3_roundtrip (env : Env) (g : HttpClientState) :
    (∀ (a : DeepLTextTranslator) (vars : List String) (strict : Bool)
        (v : Option String),
      a.api_key = Secret.envVar vars strict →
      Secret.resolveValue env a.api_key = .ok v →
      a.target_lang ≠ "" →
      TextRoundtripOk env g a)
    ∧ (∀ (a : DeepLDocumentTranslator) (vars : List String) (strict : Bool)
        (v : Option String),
      a.api_key = Secret.envVar vars strict →
      Secret.resolveValue env a.api_key = .ok v →
      DocRoundtripOk env g a) := by
  constructor
  · intro a vars strict v hak hres htl
    rw [hak] at hres
    have hok : textTargetLangOk (PyVal.str a.target_lang) = true := by
      simp [textTargetLangOk, htl]
    have hinit := textInit_ok env g
      { api_key := Secret.envVar vars strict
      , source_lang := a.source_lang
      , target_lang := PyVal.str a.target_lang
      , formality := some (Sum.inl a.formality.value)
      , max_retries := 5
      , preserve_formatting := a.preserve_formatting
      , split_sentences := some (Sum.inl a.split_sentences.value)
      , context := a.context
      , glossary := a.glossary
      , tag_handling := a.tag_handling
      , outline_detection := a.outline_detection
      , non_splitting_tags := a.non_splitting_tags
      , splitting_tags := a.splitting_tags
      , ignore_tags := a.ignore_tags }
      v a.formality a.split_sentences hok hres
      (formalityFromArg_value a.formality)
      (splitSentencesFromArg_value a.split_sentences)
    refine ⟨
      { typeName := textComponentType
      , api_key := { kind := "env_var", env_vars := vars, strict := strict }
      , source_lang := a.source_lang
      , target_lang := a.target_lang
      , formality := a.formality.value
      , preserve_formatting := a.preserve_formatting
      , split_sentences := a.split_sentences.value
      , context := a.context
      , glossary := a.glossary
      , tag_handling := a.tag_handling
      , outline_detection := a.outline_detection
      , non_splitting_tags := a.non_splitting_tags
      , splitting_tags := a.splitting_tags
      , ignore_tags := a.ignore_tags },
      { api_key := Secret.envVar vars strict
      , max_retries := 5
      , source_lang := a.source_lang
      , target_lang := a.target_lang
      , formality := a.formality
      , preserve_formatting := a.preserve_formatting
      , split_sentences := a.split_sentences
      , context := a.context
      , glossary := a.glossary
      , tag_handling := a.tag_handling
      , outline_detection := a.outline_detection
      , non_splitting_tags := a.non_splitting_tags
      , splitting_tags := a.splitting_tags
      , ignore_tags := a.ignore_tags },
      ?_, ?_, hak.symm, rfl, rfl, rfl, rfl, rfl, rfl, rfl, rfl, rfl, rfl,
      rfl, rfl⟩
    · rw [DeepLTextTranslator.toDict, hak]
      rfl
    · show (DeepLTextTranslator.init env g _).2 = _
      rw [hinit]
      rfl
  · intro a vars strict v hak hres
    rw [hak] at hres
    have hinit := docInit_ok env g
      { api_key := Secret.envVar vars strict
      , source_lang := a.source_lang
      , target_lang := strOrListToPyVal a.target_lang
      , formality := some (Sum.inl a.formality.value)
      , max_retries := 5
      , preserve_formatting := a.preserve_formatting
      , split_sentences := some (Sum.inl a.split_sentences.value)
      , context := a.context
      , glossary := a.glossary
      , tag_handling := a.tag_handling
      , outline_detection := a.outline_detection
      , non_splitting_tags := a.non_splitting_tags
      , splitting_tags := a.splitting_tags
      , ignore_tags := a.ignore_tags
      , include_score := a.include_score }
      v a.formality a.split_sentences
      (docTargetLangOk_strOrListToPyVal a.target_lang) hres
      (formalityFromArg_value a.formality)
      (splitSentencesFromArg_value a.split_sentences)
    refine ⟨
      { typeName := docComponentType
      , api_key := { kind := "env_var", env_vars := vars, strict := strict }
      , source_lang := a.source_lang
      , target_lang := a.target_lang
      , formality := a.formality.value
      , preserve_formatting := a.preserve_formatting
      , split_sentences := a.split_sentences.value
      , context := a.context
      , glossary := a.glossary
      , tag_handling := a.tag_handling
      , outline_detection := a.outline_detection
      , non_splitting_tags := a.non_splitting_tags
      , splitting_tags := a.splitting_tags
      , ignore_tags := a.ignore_tags
      , include_score := a.include_score },
      { api_key := Secret.envVar vars strict
      , max_retries := 5
      , source_lang := a.source_lang
      , target_lang := pyAsStrOrList (strOrListToPyVal a.target_lang)
      , formality := a.formality
      , preserve_formatting := a.preserve_formatting
      , split_sentences := a.split_sentences
      , context := a.context
      , glossary := a.glossary
      , tag_handling := a.tag_handling
      , outline_detection := a.outline_detection
      , non_splitting_tags := a.non_splitting_tags
      , splitting_tags := a.splitting_tags
      , ignore_tags := a.ignore_tags
      , include_score := a.include_score },
      ?_, ?_, hak.symm, rfl, pyAsStrOrList_strOrListToPyVal a.target_lang,
      rfl, rfl, rfl, rfl, rfl, rfl, rfl, rfl, rfl, rfl, rfl⟩
    · rw [DeepLDocumentTranslator.toDict, hak]
      rfl
    · show (DeepLDocumentTranslator.init env g _).2 = _
      rw [hinit]

/-- C3 witness: the round trip evaluated at two concrete, fully
populated configurations with a strict env-var credential set in the
environment. -/
theorem C3_roundtrip_witness :
    TextRoundtripOk envW gW textAdapterW ∧ DocRoundtripOk envW gW docAdapterLW :=
  ⟨(C3_roundtrip envW gW).1 textAdapterW ["DEEPL_API_KEY"] true
      (some "test-api-key") rfl rfl (by decide),
   (C3_roundtrip envW gW).2 docAdapterLW ["DEEPL_API_KEY"] true
      (some "test-api-key") rfl rfl⟩

/-- C2: a document adapter configured with a target-language list of
length N applied to M documents that all have non-empty content returns
exactly N * M records grouped by target language: the record at position
k * M + j is the translation of input document j into target language k,
so all M translations for the first language come first, then all M for
the second, each language block in input-document order.  The client is
assumed to return one translation per submitted text (the remote API
contract). -/
theorem C2_fanout_grouping (a : DeepLDocumentTranslator) (client : DocClient)
    (documents : List Document) (source_lang : Option String)
    (langs : List String)
    (hcl : ∀ c : BatchCall, (client c).length = c.texts.length)
    (htl : a.target_lang = Sum.inr langs)
    (hc : ∀ d ∈ documents, ∃ s, d.content = some s ∧ s ≠ "") :
    ((a.run client documents source_lang).documents.length
        = langs.length * documents.length)
    ∧ ∀ k j (hk : k < langs.length) (hj : j < documents.length),
        (a.run client documents source_lang).documents[k * documents.length + j]?
          = ((client (docBatchCall a documents source_lang
                (langs.get ⟨k, hk⟩)))[j]?).map
              (translatedDocument a (langs.get ⟨k, hk⟩)
                (documents.get ⟨j, hj⟩)) := by
  have hlang : targetLanguages a = langs := by simp [targetLanguages, htl]
  rcases documents with - | ⟨d0, t0⟩
  · constructor
    · simp [DeepLDocumentTranslator.run]
    · intro k j hk hj
      exact absurd hj (by simp)
  · have hne : (d0 :: t0) ≠ ([] : List Document) := by simp
    have hKM := batchTexts_length_eq (d0 :: t0) hc
    obtain ⟨hlen, hidx⟩ := run_documents_spec a client (d0 :: t0) source_lang hcl hne
    constructor
    · rw [hlen, hlang, hKM]
    · intro k j hk hj
      have h2 := hidx k j (by rw [hKM]; exact hj)
      rw [hKM] at h2
      rw [h2, hlang, List.getElem?_eq_getElem hk, List.getElem?_eq_getElem hj]
      simp

/-- C2 witness: two documents, two target languages: 4 records, and the
record at position 1 * 2 + 0 is the first document translated into the
second language. -/
theorem C2_fanout_grouping_witness :
    ((docAdapterLW.run docClientW [docW1, docW2] Option.none).documents.length
        = 2 * 2)
    ∧ (docAdapterLW.run docClientW [docW1, docW2] Option.none).documents[1 * 2 + 0]?
        = some (translatedDocument docAdapterLW "FR" docW1
            { text := "T:hola", detected_source_lang := "DE" }) := by
  have hc : ∀ d ∈ [docW1, docW2], ∃ s, d.content = some s ∧ s ≠ "" := by
    intro d hd
    rcases List.mem_cons.mp hd with h | hd2
    · subst h; exact ⟨"hola", rfl, by decide⟩
    · rcases List.mem_cons.mp hd2 with h | hd3
      · subst h; exact ⟨"adios", rfl, by decide⟩
      · exact absurd hd3 (List.not_mem_nil d)
  have h := C2_fanout_grouping docAdapterLW docClientW [docW1, docW2] Option.none
      ["ES", "FR"] docClientW_length rfl hc
  exact ⟨h.1, (h.2 1 0 (by decide) (by decide)).trans rfl⟩

/-- C9: for a non-empty input list, documents whose content is absent or
empty are excluded from every submitted batch (each recorded call
carries batchTexts documents, which drops exactly those), while the
returned translations are zipped against the FULL input list: with K
non-empty contents, each of the N target languages contributes exactly K
records, and the record at offset r of a language block pairs input
document r of the full list with the translation of the r-th non-empty
content — which, when K < M, need not come from that document. -/
theorem C9_filter_zip_misalignment (a : DeepLDocumentTranslator)
    (client : DocClient) (documents : List Document)
    (source_lang : Option String)
    (hcl : ∀ c : BatchCall, (client c).length = c.texts.length)
    (hne : documents ≠ []) :
    ((a.run client documents source_lang).calls
        = (targetLanguages a).map (docBatchCall a documents source_lang))
    ∧ ((a.run client documents source_lang).documents.length
        = (targetLanguages a).length * (batchTexts documents).length)
    ∧ ∀ q r, r < (batchTexts documents).length →
        (a.run client documents
            source_lang).documents[q * (batchTexts documents).length + r]?
          = (targetLanguages a)[q]?.bind (fun tl =>
              documents[r]?.bind (fun d =>
                ((client (docBatchCall a documents source_lang tl))[r]?).map
                  (fun tr => translatedDocument a tl d tr))) := by
  have hemp : documents.isEmpty = false := by
    cases documents with
    | nil => exact absurd rfl hne
    | cons d t => rfl
  obtain ⟨h1, h2⟩ := run_documents_spec a client documents source_lang hcl hne
  exact ⟨by simp [DeepLDocumentTranslator.run, hemp], h1, h2⟩

/-- C9 witness: a contentless document followed by a document with
content "hola": one submitted text, one output record, and that record
attaches the translation of "hola" to the contentless FIRST document. -/
theorem C9_filter_zip_misalignment_witness :
    ((docAdapterW.run docClientW [docEmptyW, docW1] Option.none).documents.length
        = 1 * 1)
    ∧ (docAdapterW.run docClientW
          [docEmptyW, docW1] Option.none).documents[0 * 1 + 0]?
        = some (translatedDocument docAdapterW "ES" docEmptyW
            { text := "T:hola", detected_source_lang := "DE" }) := by
  have h := C9_filter_zip_misalignment docAdapterW docClientW [docEmptyW, docW1]
      Option.none docClientW_length (by decide)
  exact ⟨h.2.1, (h.2.2 0 0 (by decide)).trans rfl⟩

/-- C7: every output record of a document-batch run carries the score of
the input record it was zipped with when include_score is enabled, and
no score at all when it is disabled (components.py line 371). -/
theorem C7_score_propagation (a : DeepLDocumentTranslator) (client : DocClient)
    (documents : List Document) (source_lang : Option String)
    (hcl : ∀ c : BatchCall, (client c).length = c.texts.length) :
    ∀ q r (dout din : Document), r < (batchTexts documents).length →
      (a.run client documents
          source_lang).documents[q * (batchTexts documents).length + r]?
        = some dout →
      documents[r]? = some din →
      ((a.include_score = true → dout.score = din.score)
        ∧ (a.include_score = false → dout.score = Option.none)) := by
  intro q r dout din hr hout hdin
  rcases documents with - | ⟨d0, t0⟩
  · simp [batchTexts] at hr
  · obtain ⟨-, hidx⟩ :=
      run_documents_spec a client (d0 :: t0) source_lang hcl (by simp)
    have h2 := hidx q r hr
    rw [hout, hdin] at h2
    cases hq : (targetLanguages a)[q]? with
    | none => rw [hq] at h2; simp at h2
    | some tl =>
        rw [hq] at h2
        simp only [Option.some_bind] at h2
        cases htr : (client (docBatchCall a (d0 :: t0) source_lang tl))[r]? with
        | none => rw [htr] at h2; simp at h2
        | some tr =>
            rw [htr] at h2
            simp only [Option.map_some', Option.some.injEq] at h2
            subst h2
            constructor
            · intro hinc; simp [translatedDocument, hinc]
            · intro hinc; simp [translatedDocument, hinc]

/-- C7 witness: the score theorem evaluated with score propagation
enabled and disabled on a document carrying score 7. -/
theorem C7_score_propagation_witness :
    (translatedDocument docAdapterW "ES" docW1
        { text := "T:hola", detected_source_lang := "DE" }).score = docW1.score
    ∧ (translatedDocument docAdapterNoScoreW "ES" docW1
        { text := "T:hola", detected_source_lang := "DE" }).score
      = Option.none := by
  have h1 := C7_score_propagation docAdapterW docClientW [docW1] Option.none
      docClientW_length 0 0
      (translatedDocument docAdapterW "ES" docW1
        { text := "T:hola", detected_source_lang := "DE" }) docW1
      (by decide) rfl rfl
  have h2 := C7_score_propagation docAdapterNoScoreW docClientW [docW1]
      Option.none docClientW_length 0 0
      (translatedDocument docAdapterNoScoreW "ES" docW1
        { text := "T:hola", detected_source_lang := "DE" }) docW1
      (by decide) rfl rfl
  exact ⟨h1.1 rfl, h2.2 rfl⟩

theorem resolveSourceLang_override (s : String) (hs : s ≠ "")
    (cfg : Option String) : resolveSourceLang (some s) cfg = some s := by
  simp [resolveSourceLang, optTruthy, hs]

theorem resolveSourceLang_config (ov : Option String)
    (hov : ov = Option.none ∨ ov = some "") (t : String) (ht : t ≠ "") :
    resolveSourceLang ov (some t) = some t := by
  rcases hov with h | h <;> subst h <;> simp [resolveSourceLang, optTruthy, ht]

theorem resolveSourceLang_auto (ov cfg : Option String)
    (hov : ov = Option.none ∨ ov = some "")
    (hcfg : cfg = Option.none ∨ cfg = some "") :
    resolveSourceLang ov cfg = Option.none := by
  rcases hov with h | h <;> rcases hcfg with h2 | h2 <;> subst h <;> subst h2 <;>
    simp [resolveSourceLang, optTruthy]

/-- The text adapter forwards the resolved source language in its single
client call. -/
theorem text_run_source_lang (a : DeepLTextTranslator) (client : TextClient)
    (s : String) (hs : s ≠ "") (ov : Option String) :
    (a.run client (PyVal.str s) ov).2.map TextCall.source_lang
      = [resolveSourceLang ov a.source_lang] := by
  simp [DeepLTextTranslator.run, hs]

/-- Every client call of a document adapter run carries the resolved
source language. -/
theorem doc_run_source_lang (a : DeepLDocumentTranslator) (client : DocClient)
    (documents : List Document) (ov : Option String) :
    ∀ call ∈ (a.run client documents ov).calls,
      call.source_lang = resolveSourceLang ov a.source_lang := by
  intro call hc
  by_cases hemp : documents.isEmpty
  · simp [DeepLDocumentTranslator.run, hemp] at hc
  · simp only [DeepLDocumentTranslator.run, Bool.not_eq_true] at hemp hc
    rw [hemp, if_neg (by simp)] at hc
    simp only [List.mem_map] at hc
    obtain ⟨tl, -, he⟩ := hc
    rw [← he]
    rfl

/-- C8: the source language forwarded to the remote client by either
adapter run is the per-call override when a non-empty one is given
(override precedence), else the configured non-empty default, else an
absent value meaning auto-detect.  An empty string is Python-falsy in
the source resolution expression and counts as not given. -/
theorem C8_source_lang_resolution (a : DeepLTextTranslator)
    (b : DeepLDocumentTranslator) (ct : TextClient) (cd : DocClient)
    (text : String) (htext : text ≠ "") (documents : List Document)
    (ov : Option String) :
    (∀ s, ov = some s → s ≠ "" →
        (a.run ct (PyVal.str text) ov).2.map TextCall.source_lang = [some s]
        ∧ ∀ call ∈ (b.run cd documents ov).calls, call.source_lang = some s)
    ∧ ((ov = Option.none ∨ ov = some "") →
        (∀ t, a.source_lang = some t → t ≠ "" →
          (a.run ct (PyVal.str text) ov).2.map TextCall.source_lang = [some t])
        ∧ (∀ t, b.source_lang = some t → t ≠ "" →
          ∀ call ∈ (b.run cd documents ov).calls, call.source_lang = some t))
    ∧ ((ov = Option.none ∨ ov = some "") →
        ((a.source_lang = Option.none ∨ a.source_lang = some "") →
          (a.run ct (PyVal.str text) ov).2.map TextCall.source_lang
            = [Option.none])
        ∧ ((b.source_lang = Option.none ∨ b.source_lang = some "") →
          ∀ call ∈ (b.run cd documents ov).calls,
            call.source_lang = Option.none)) := by
  refine ⟨?_, ?_, ?_⟩
  · intro s hov hs
    subst hov
    constructor
    · rw [text_run_source_lang a ct text htext (some s),
        resolveSourceLang_override s hs]
    · intro call hc
      rw [doc_run_source_lang b cd documents (some s) call hc,
        resolveSourceLang_override s hs]
  · intro hov
    constructor
    · intro t hcfg ht
      rw [text_run_source_lang a ct text htext ov, hcfg,
        resolveSourceLang_config ov hov t ht]
    · intro t hcfg ht call hc
      rw [doc_run_source_lang b cd documents ov call hc, hcfg,
        resolveSourceLang_config ov hov t ht]
  · intro hov
    constructor
    · intro hcfg
      rw [text_run_source_lang a ct text htext ov,
        resolveSourceLang_auto ov a.source_lang hov hcfg]
    · intro hcfg call hc
      rw [doc_run_source_lang b cd documents ov call hc,
        resolveSourceLang_auto ov b.source_lang hov hcfg]

/-- C8 witness: the override wins over the configured default, the
configured default applies when no override is given, and both absent
means an absent value is forwarded. -/
theorem C8_source_lang_resolution_witness :
    (textAdapterW.run textClientW (PyVal.str "hello") (some "IT")).2.map
        TextCall.source_lang = [some "IT"]
    ∧ (textAdapterW.run textClientW (PyVal.str "hello") Option.none).2.map
        TextCall.source_lang = [some "DE"]
    ∧ (textAdapterNoSrcW.run textClientW (PyVal.str "hello") Option.none).2.map
        TextCall.source_lang = [Option.none] := by
  refine ⟨?_, ?_, ?_⟩
  · exact ((C8_source_lang_resolution textAdapterW docAdapterW textClientW
      docClientW "hello" (by decide) [] (some "IT")).1 "IT" rfl (by decide)).1
  · exact ((C8_source_lang_resolution textAdapterW docAdapterW textClientW
      docClientW "hello" (by decide) [] Option.none).2.1
        (Or.inl rfl)).1 "DE" rfl (by decide)
  · exact ((C8_source_lang_resolution textAdapterNoSrcW docAdapterW textClientW
      docClientW "hello" (by decide) [] Option.none).2.2
        (Or.inl rfl)).1 (Or.inl rfl)

end DeepLHaystack
